import Mathlib

/-
  Verification of the youtube-watcher queue worker (backend/app/queue_worker.py)
  and its collaborator services, as a shallow embedding in Lean 4.

  Conventions:
  - time is measured in seconds since an arbitrary epoch, as rationals (Python
    datetimes and floats);
  - external effects (yt-dlp attempts, ffprobe, the ASR model, the LLM) are
    oracles passed as function arguments;
  - a Python function that can raise is embedded with an Option or Except
    result, where the error constructor models the raised exception.
-/

/-- Is the first character list a prefix of the second? -/
def isPrefixOfCL : List Char → List Char → Bool
  | [], _ => true
  | _ :: _, [] => false
  | a :: as, b :: bs => a == b && isPrefixOfCL as bs

/-- Substring search on character lists. -/
def containsCL : List Char → List Char → Bool
  | [], needle => needle.isEmpty
  | c :: rest, needle => isPrefixOfCL needle (c :: rest) || containsCL rest needle

/-- Python substring containment: models the `needle in haystack` operator. -/
def pyContains (hay needle : String) : Bool := containsCL hay.data needle.data

/-- Python str.lower (character-wise lowering). -/
def pyLower (s : String) : String := ⟨s.data.map Char.toLower⟩

/-- Python str.strip (over the common whitespace characters). -/
def pyStrip (s : String) : String :=
  ⟨(((s.data.dropWhile Char.isWhitespace).reverse).dropWhile Char.isWhitespace).reverse⟩

/-- Python falsy-or for optional strings: `a or b` where a may be absent or empty. -/
def pyOrStr (a : Option String) (b : String) : String :=
  match a with
  | some s => if s ≠ "" then s else b
  | none => b

/-! ## Item state machine (backend/app/models/database.py, class VideoStatus) -/

inductive VideoStatus where
  | pending
  | downloading
  | converting
  | transcribing
  | summarizing
  | completed
  | failed
  | unavailable
deriving DecidableEq, Repr, BEq, Inhabited

/-- The slice of a VideoRecord row (backend/app/models/database.py) that the
queue worker reads and writes.  `userId` is nullable in the schema
("Nullable for migration"); `updatedAt` is nullable until the first update. -/
structure VideoRecord where
  id : Nat
  userId : Option Nat
  status : VideoStatus
  progress : ℚ
  errorMessage : Option String
  createdAt : ℚ
  updatedAt : Option ℚ
  transcript : Option String
  summary : Option String
  keywords : Option String
  completedAt : Option ℚ
deriving DecidableEq, Repr, Inhabited

/-! ## Download gate (queue_worker.py lines 39-157) -/

/-- Process-wide download pause state: `_downloads_paused_until` and
`_blocked_download_failures`, both protected by `_download_pause_lock`.
A state transformer models one critical section under that lock. -/
structure GateState where
  pausedUntil : Option ℚ
  blockedFailures : Nat
deriving DecidableEq, Repr

/-- Embedding of `_register_blocked_download_failure` (queue_worker.py 122-151).
`thresholdCfg` is `settings.queue_blocked_threshold`, `pauseSeconds` is
`settings.queue_blocked_pause_seconds`; the message is only logged. -/
def registerBlockedFailure (thresholdCfg pauseSeconds : Int) (_errorMessage : String)
    (now : ℚ) (s : GateState) : GateState :=
  let threshold := max 1 thresholdCfg
  let s1 : GateState := { s with blockedFailures := s.blockedFailures + 1 }
  match s1.pausedUntil with
  | some _ => s1
  | none =>
    if (s1.blockedFailures : Int) < threshold then s1
    else if pauseSeconds ≤ 0 then
      { s1 with pausedUntil := some (now + (365 * 100 * 86400 : ℚ)) }
    else
      { s1 with pausedUntil := some (now + (pauseSeconds : ℚ)) }

/-- Embedding of `_get_download_pause_remaining_seconds` (queue_worker.py 95-109):
returns the updated gate state and the remaining pause in whole seconds;
an expired pause is cleared and the blocked counter is reset. -/
def getDownloadPauseRemainingSeconds (now : ℚ) (s : GateState) : GateState × Nat :=
  match s.pausedUntil with
  | none => (s, 0)
  | some t =>
    if t ≤ now then ({ pausedUntil := none, blockedFailures := 0 }, 0)
    else (s, Int.toNat ⌊t - now⌋)

/-- Embedding of `_reset_blocked_download_counter_on_success` (queue_worker.py 154-157). -/
def resetBlockedCounterOnSuccess (s : GateState) : GateState :=
  { s with blockedFailures := 0 }

/-! ## Stuck-task supervisor constants (queue_worker.py 160-170) -/

def BASE_STUCK_TASK_TIMEOUT : ℚ := 30 * 60

def MIN_TRANSCRIPTION_TIMEOUT : ℚ := 2 * 3600

def MAX_TRANSCRIPTION_TIMEOUT : ℚ := 24 * 3600

def TRANSCRIPTION_SPEED_FACTOR : ℚ := 10

def TRANSCRIPTION_BUFFER_TIME : ℚ := 1 * 3600

/-- `stuck_record.updated_at or stuck_record.created_at` (queue_worker.py 1358):
datetimes are always truthy, so this is a null fallback. -/
def recordTime (r : VideoRecord) : ℚ := r.updatedAt.getD r.createdAt

/-- The stage-specific stuck timeout computed by the worker loop
(queue_worker.py 1365-1396).  For `transcribing` the WAV is probed with
ffprobe; `probedDuration` is the probe outcome (`None` on any failure).
Python tests the duration with `if audio_duration_seconds:`, so a probed
duration of exactly 0.0 also falls back to the 6-hour timeout. -/
def stuckTimeout (status : VideoStatus) (probedDuration : Option ℚ) : ℚ :=
  if status = VideoStatus.transcribing then
    match probedDuration with
    | some d =>
      if d ≠ 0 then
        max MIN_TRANSCRIPTION_TIMEOUT
          (min (d * TRANSCRIPTION_SPEED_FACTOR + TRANSCRIPTION_BUFFER_TIME)
            MAX_TRANSCRIPTION_TIMEOUT)
      else 6 * 3600
    | none => 6 * 3600
  else BASE_STUCK_TASK_TIMEOUT

/-- One record of the stuck-task recovery pass of `worker_loop`
(queue_worker.py 1347-1426).  The query restricts to stages
downloading / transcribing / summarizing with a non-null user id (the
`CONVERTING` member is commented out of the query, and the inner
`CONVERTING` guard of the loop body is therefore dead code, kept here
for fidelity).  `probe` is the ffprobe duration oracle keyed by record id. -/
def superviseRecord (now : ℚ) (probe : Nat → Option ℚ) (r : VideoRecord) : VideoRecord :=
  if (r.status = VideoStatus.downloading ∨ r.status = VideoStatus.transcribing ∨
        r.status = VideoStatus.summarizing) ∧ r.userId ≠ none then
    if now - recordTime r > stuckTimeout r.status (probe r.id) then
      if r.status = VideoStatus.downloading then
        { r with status := VideoStatus.failed,
                 errorMessage := some ("Download stuck for " ++ toString (now - recordTime r) ++
                   "s (timeout: " ++ toString (stuckTimeout r.status (probe r.id)) ++
                   "s). Marked failed; manual retry required.") }
      else if r.status = VideoStatus.converting then r
      else
        { r with status := VideoStatus.pending, progress := 0,
                 errorMessage := some ("Task was stuck in pending state for " ++
                   toString (now - recordTime r) ++ "s, reset to pending") }
    else r
  else r

/-! ## Pool scheduler (queue_worker.py 1319-1497) -/

/-- Ordering of pending items: `ORDER BY created_at DESC, id DESC`
(queue_worker.py 1444-1448).  `pendingOrder a b` holds when `a` comes
no later than `b` in the query result. -/
def pendingOrder (a b : VideoRecord) : Prop :=
  b.createdAt < a.createdAt ∨ (b.createdAt = a.createdAt ∧ b.id ≤ a.id)

instance : DecidableRel pendingOrder := fun a b =>
  inferInstanceAs (Decidable (b.createdAt < a.createdAt ∨ (b.createdAt = a.createdAt ∧ b.id ≤ a.id)))

/-- `updated_at DESC NULLS LAST`: `updatedAtDescNullsLast x y` holds when a row
with `updated_at = x` comes strictly before one with `updated_at = y`. -/
def updatedAtDescNullsLast (x y : Option ℚ) : Prop :=
  match x, y with
  | some a, some b => b < a
  | some _, none => True
  | none, _ => False

instance (x y : Option ℚ) : Decidable (updatedAtDescNullsLast x y) :=
  match x, y with
  | some a, some b => inferInstanceAs (Decidable (b < a))
  | some _, none => isTrue trivial
  | none, some _ => isFalse fun h => h
  | none, none => isFalse fun h => h

/-- Ordering of in-flight items:
`ORDER BY created_at DESC, updated_at DESC NULLS LAST, id DESC`
(queue_worker.py 1462-1467). -/
def inflightOrder (a b : VideoRecord) : Prop :=
  b.createdAt < a.createdAt ∨
    (b.createdAt = a.createdAt ∧
      (updatedAtDescNullsLast a.updatedAt b.updatedAt ∨
        (a.updatedAt = b.updatedAt ∧ b.id ≤ a.id)))

instance : DecidableRel inflightOrder := fun a b =>
  inferInstanceAs (Decidable (b.createdAt < a.createdAt ∨
    (b.createdAt = a.createdAt ∧
      (updatedAtDescNullsLast a.updatedAt b.updatedAt ∨
        (a.updatedAt = b.updatedAt ∧ b.id ≤ a.id)))))

/-- The download scheduling loop (queue_worker.py 1450-1454): for each
candidate, skip it when its id is already in `running_downloads`, otherwise
add the id to the running set and start the task.  Returns the updated
running set and the list of started ids in start order. -/
def scheduleDownloads (running : List Nat) : List VideoRecord → List Nat × List Nat
  | [] => (running, [])
  | r :: rest =>
    if r.id ∈ running then scheduleDownloads running rest
    else
      let out := scheduleDownloads (r.id :: running) rest
      (out.1, r.id :: out.2)

/-- The heavy-processing scheduling loop (queue_worker.py 1469-1473): skip a
candidate when its id is in `running_processing` or in `running_downloads`
(the latter including ids started by this tick's download loop). -/
def scheduleProcessing (runningP runningD : List Nat) : List VideoRecord → List Nat × List Nat
  | [] => (runningP, [])
  | r :: rest =>
    if r.id ∈ runningP ∨ r.id ∈ runningD then scheduleProcessing runningP runningD rest
    else
      let out := scheduleProcessing (r.id :: runningP) runningD rest
      (out.1, r.id :: out.2)

/-- Inputs of one iteration of `worker_loop` (queue_worker.py 1342-1491):
database contents, wall clock, the per-pool running sets, the two pool
capacities (`DOWNLOAD_CONCURRENCY`, `PROCESS_CONCURRENCY`), the ffprobe
oracle and the download gate state. -/
structure TickInput where
  db : List VideoRecord
  now : ℚ
  runningDownloads : List Nat
  runningProcessing : List Nat
  downloadConcurrency : Nat
  processConcurrency : Nat
  probe : Nat → Option ℚ
  gate : GateState

/-- Observable outcome of one worker-loop iteration: the updated rows and gate,
the updated running sets, and which ids were started on each pool. -/
structure TickOutput where
  db : List VideoRecord
  gate : GateState
  runningDownloads : List Nat
  runningProcessing : List Nat
  startedDownloads : List Nat
  startedProcessing : List Nat

/-- Download-pool scheduling of one tick (queue_worker.py 1428-1454): skipped
entirely while the gate reports a positive pause; otherwise the query takes
the pending rows with a user, newest first, limited to the free slots. -/
def tickDownloads (inp : TickInput) (db1 : List VideoRecord) (pauseRemaining : Nat) :
    List Nat × List Nat :=
  if pauseRemaining > 0 then (inp.runningDownloads, [])
  else
    let slots : Int := (inp.downloadConcurrency : Int) - inp.runningDownloads.length
    if slots > 0 then
      scheduleDownloads inp.runningDownloads
        ((List.insertionSort pendingOrder
            (db1.filter fun r => r.status == VideoStatus.pending && r.userId.isSome)).take
          slots.toNat)
    else (inp.runningDownloads, [])

/-- Heavy-pool scheduling of one tick (queue_worker.py 1456-1473): candidates
are rows in converting / transcribing / summarizing with a user, newest
first; `runD` is the download running set as left by this tick's download
loop. -/
def tickProcessing (inp : TickInput) (db1 : List VideoRecord) (runD : List Nat) :
    List Nat × List Nat :=
  let slots : Int := (inp.processConcurrency : Int) - inp.runningProcessing.length
  if slots > 0 then
    scheduleProcessing inp.runningProcessing runD
      ((List.insertionSort inflightOrder
          (db1.filter fun r =>
            (r.status == VideoStatus.converting || r.status == VideoStatus.transcribing ||
              r.status == VideoStatus.summarizing) && r.userId.isSome)).take
        slots.toNat)
  else (inp.runningProcessing, [])

/-- One iteration of `worker_loop` (queue_worker.py 1342-1491): first the
stuck-task recovery pass over every matching row, then the pause check,
then download scheduling, then heavy-processing scheduling.  The two
subscription maintenance tasks only spawn background jobs and are omitted. -/
def workerTick (inp : TickInput) : TickOutput :=
  let db1 := inp.db.map (superviseRecord inp.now inp.probe)
  let gp := getDownloadPauseRemainingSeconds inp.now inp.gate
  let dl := tickDownloads inp db1 gp.2
  let pr := tickProcessing inp db1 dl.1
  { db := db1, gate := gp.1, runningDownloads := dl.1, runningProcessing := pr.1,
    startedDownloads := dl.2, startedProcessing := pr.2 }

/-! ## Download error classifiers (backend/app/services/video_downloader.py 59-136) -/

/-- `_looks_like_blocked_error`: YouTube bot-check / sign-in errors. -/
def looksLikeBlockedError (message : String) : Bool :=
  if message = "" then false
  else
    let msg := (pyLower message)
    [ "sign in to confirm you\x27re not a bot",
      "sign in to confirm you’re not a bot",
      "confirm you’re not a bot",
      "confirm you\x27re not a bot",
      "use --cookies-from-browser or --cookies",
      "captcha",
      "verify that you are not a robot",
      "this helps protect our community",
      "cookies are no longer valid" ].any fun n => pyContains msg n

/-- `_looks_retryable`: transient errors worth retrying. -/
def looksRetryable (message : String) : Bool :=
  if message = "" then false
  else
    let msg := (pyLower message)
    [ "timed out",
      "timeout",
      "temporarily unavailable",
      "connection reset",
      "connection aborted",
      "connection refused",
      "network is unreachable",
      "tls",
      "ssl",
      "proxy",
      "http error 429",
      "http error 500",
      "http error 502",
      "http error 503",
      "http error 504",
      "unable to download",
      "failed to establish a new connection" ].any fun n => pyContains msg n

/-- `_looks_like_format_unavailable`: yt-dlp errors caused by a too strict
format selection. -/
def looksLikeFormatUnavailable (message : String) : Bool :=
  if message = "" then false
  else pyContains (pyLower message) "requested format is not available"

/-- `looks_like_membership_only_error`: the video requires channel membership. -/
def looksLikeMembershipOnlyError (message : String) : Bool :=
  if message = "" then false
  else
    let msg := (pyLower message)
    pyContains msg "member" &&
      (pyContains msg "members-only" || pyContains msg "member-only" ||
        pyContains msg "join this channel" || pyContains msg "join the channel")

/-! ## Downloader retry loop (video_downloader.py, VideoDownloader.download 241-337) -/

/-- The yt-dlp format selector actually used by an attempt:
`preferred` is the mp4/m4a selection, `fallback` is
`bestvideo+bestaudio/best` merged into mkv (used from attempt 2 on). -/
inductive DlFormat where
  | preferred
  | fallback
deriving DecidableEq, Repr, BEq

/-- Metadata returned by a successful yt-dlp attempt (the result dict fields
the queue worker relies on). -/
structure DownloadInfo where
  id : String
  title : String
  duration : ℚ
  filePath : String
deriving DecidableEq, Repr, Inhabited

/-- Outcome of one yt-dlp attempt (an oracle: the network's behaviour). -/
inductive AttemptOutcome where
  | success (info : DownloadInfo)
  | failure (msg : String)
deriving DecidableEq, Repr

/-- `VideoDownloadError(message, blocked=…, retryable=…)`. -/
structure DownloadError where
  msg : String
  blocked : Bool
  retryable : Bool
deriving DecidableEq, Repr

/-- The body of the attempt loop of `VideoDownloader.download`
(video_downloader.py 246-337).  `attempt` is 1-based; `remaining` is the
number of loop iterations left; `lastErr` tracks `last_err` for the raise
after the loop.  A format-unavailable failure on attempt 1 switches to the
fallback selector only when `max_attempts >= 2`; otherwise it falls through
to the retryable check. -/
def downloadGo (attemptOutcome : Nat → DlFormat → AttemptOutcome) (maxAttempts : Nat) :
    Nat → String → Nat → Except DownloadError DownloadInfo
  | _, lastErr, 0 =>
    .error { msg := "Failed to download video: " ++ lastErr, blocked := false, retryable := false }
  | attempt, _, remaining + 1 =>
    let fmt := if attempt > 1 then DlFormat.fallback else DlFormat.preferred
    match attemptOutcome attempt fmt with
    | .success info => .ok info
    | .failure msg =>
      if looksLikeBlockedError msg then
        .error { msg := msg, blocked := true, retryable := false }
      else if attempt == 1 && looksLikeFormatUnavailable msg && decide (2 ≤ maxAttempts) then
        downloadGo attemptOutcome maxAttempts (attempt + 1) msg remaining
      else if decide (attempt < maxAttempts) && looksRetryable msg then
        downloadGo attemptOutcome maxAttempts (attempt + 1) msg remaining
      else
        .error { msg := "Failed to download video: " ++ msg, blocked := false,
                 retryable := looksRetryable msg }

/-- `VideoDownloader.download` restricted to its attempt loop:
`maxAttemptsCfg` is the `YTDLP_DOWNLOAD_MAX_ATTEMPTS` environment value
(default 1), clamped with `max(1, …)`; the result models the returned
info dict or the raised `VideoDownloadError`. -/
def VideoDownloader.download (maxAttemptsCfg : Int)
    (attemptOutcome : Nat → DlFormat → AttemptOutcome) : Except DownloadError DownloadInfo :=
  let maxAttempts := (max 1 maxAttemptsCfg).toNat
  downloadGo attemptOutcome maxAttempts 1 "" maxAttempts

/-! ## Summarize stage tail of process_video_task (queue_worker.py 1105-1168) -/

/-- Outcome of an awaited LLM call: the returned text or the raised exception
message. -/
inductive LLMOutcome where
  | ok (text : String)
  | error (msg : String)
deriving DecidableEq, Repr

/-- Step 4 of `process_video_task` together with the task's catch-all handler
(queue_worker.py 1105-1168): enter the summarizing stage, call
`generate_summary`; a raised exception reaches the handler, which marks the
re-fetched row `UNAVAILABLE` when the message looks membership-only and
`FAILED` otherwise, storing the message.  On success, keywords are
best-effort and the row completes. -/
def summarizePhase (now : ℚ) (r : VideoRecord)
    (summaryOutcome keywordsOutcome : LLMOutcome) : VideoRecord :=
  let r1 :=
    if r.status = VideoStatus.transcribing ∨ r.status = VideoStatus.summarizing then
      { r with status := VideoStatus.summarizing, progress := max r.progress 95 }
    else r
  match summaryOutcome with
  | .error msg =>
    if looksLikeMembershipOnlyError msg then
      { r1 with status := VideoStatus.unavailable, errorMessage := some msg }
    else
      { r1 with status := VideoStatus.failed, errorMessage := some msg }
  | .ok s =>
    let r2 := { r1 with summary := some s }
    let r3 :=
      match keywordsOutcome with
      | .ok k => if k ≠ "" then { r2 with keywords := some k } else r2
      | .error _ => r2
    { r3 with progress := 100, status := VideoStatus.completed, completedAt := some now }

/-! ## Whisper segment transcription (backend/app/services/whisper_service.py 161-240) -/

/-- One ASR segment: `start` / `end` in seconds plus text (the `end` field is
named `end_` because `end` is a Lean keyword). -/
structure WhisperSegment where
  start : ℚ
  end_ : ℚ
  text : String
deriving DecidableEq, Repr, Inhabited

/-- Metadata of one audio chunk from the VAD pipeline: offset and duration in
seconds within the original audio. -/
structure ChunkMeta where
  offset : ℚ
  duration : ℚ
deriving DecidableEq, Repr

/-- Output of `self.model.transcribe` on one chunk (the faster-whisper ASR
capability, an oracle): detection info and the chunk-local segments. -/
structure ChunkTranscription where
  infoLanguage : String
  infoLanguageProbability : ℚ
  segments : List WhisperSegment
deriving DecidableEq, Repr

/-- Return value of `WhisperService.transcribe_segments`. -/
structure TranscriptionResult where
  text : String
  language : String
  languageProbability : ℚ
  segments : List WhisperSegment
deriving DecidableEq, Repr

/-- The inner segment loop of `transcribe_segments` for one chunk
(whisper_service.py 220-232): keep segments whose stripped text is
non-empty, collect the stripped text, and rewrite local times to global
times by adding the chunk offset.  Returns (text parts, emitted segments),
both in segment order. -/
def emitChunkSegments (offset : ℚ) : List WhisperSegment → List String × List WhisperSegment
  | [] => ([], [])
  | s :: rest =>
    let segText := pyStrip s.text
    let out := emitChunkSegments offset rest
    if segText ≠ "" then
      (segText :: out.1, { start := offset + s.start, end_ := offset + s.end_, text := segText } :: out.2)
    else out

/-- The chunk loop of `transcribe_segments` (whisper_service.py 201-232),
accumulating `full_text_parts` and `all_segments` across chunks in order. -/
def transcribeSegmentsGo : List (ChunkMeta × ChunkTranscription) → List String × List WhisperSegment
  | [] => ([], [])
  | (meta, ct) :: rest =>
    let here := emitChunkSegments meta.offset ct.segments
    let restOut := transcribeSegmentsGo rest
    (here.1 ++ restOut.1, here.2 ++ restOut.2)

/-- `WhisperService.transcribe_segments` (whisper_service.py 161-240).
`chunks` pairs each chunk's pipeline metadata with the ASR result for that
chunk (the parallel `audio_chunks` / `chunk_metadata` lists zipped; the
empty case returns the placeholder result).  The detected language and its
probability come from the first chunk (`idx == 0`). -/
def WhisperService.transcribe_segments (language : Option String)
    (chunks : List (ChunkMeta × ChunkTranscription)) : TranscriptionResult :=
  match chunks with
  | [] =>
    { text := "", language := pyOrStr language "unknown", languageProbability := 0, segments := [] }
  | (_, c0) :: _ =>
    let out := transcribeSegmentsGo chunks
    { text := pyStrip (String.intercalate " " out.1),
      language := pyOrStr (some c0.infoLanguage) (pyOrStr language "unknown"),
      languageProbability := c0.infoLanguageProbability,
      segments := out.2 }

/-! ## Runner response parser (queue_worker.py 238-259) -/

/-- A Python value as far as `_extract_transcript_from_runner_response`
can observe it (JSON-shaped, plus None and bool). -/
inductive PyVal where
  | none
  | bool (b : Bool)
  | int (n : Int)
  | float (q : ℚ)
  | str (s : String)
  | list (xs : List PyVal)
  | dict (kvs : List (String × PyVal))

/-- Python truthiness of a PyVal. -/
def pyTruthy : PyVal → Bool
  | .none => false
  | .bool b => b
  | .int n => n != 0
  | .float q => q != 0
  | .str s => s != ""
  | .list xs => !xs.isEmpty
  | .dict kvs => !kvs.isEmpty

def isPyNone : PyVal → Bool
  | .none => true
  | _ => false

def isPyDict : PyVal → Bool
  | .dict _ => true
  | _ => false

/-- `d.get(key)`: the stored value, or Python None when the key is absent. -/
def pyGet (kvs : List (String × PyVal)) (key : String) : PyVal :=
  (kvs.lookup key).getD PyVal.none

/-- `(data.get("result") or {}).get(key)` (queue_worker.py 248, 251, 256):
a `None` result models the AttributeError raised when `data["result"]` is a
truthy non-dict value. -/
def fetchNested (kvs : List (String × PyVal)) (key : String) : Option PyVal :=
  let rv := pyGet kvs "result"
  if pyTruthy rv then
    match rv with
    | .dict rkvs => some (pyGet rkvs key)
    | _ => Option.none
  else some (pyGet [] key)

/-- Parsed `{text, language, segments}` dict. -/
structure RunnerTranscript where
  text : String
  language : String
  segments : List PyVal

/-- Lines 246-250 of queue_worker.py: fetch the "text" value, consulting the
nested result only when the top-level value is None and "result" is a key. -/
def extractTextStep (kvs : List (String × PyVal)) : Option PyVal :=
  if isPyNone (pyGet kvs "text") && (kvs.lookup "result").isSome then
    fetchNested kvs "text"
  else some (pyGet kvs "text")

/-- Line 251: `data.get("language") or (data.get("result") or {}).get("language")
or "unknown"` — the nested access happens whenever the top-level value is
falsy, even when "result" is absent (then it reads from an empty dict). -/
def extractLangStep (kvs : List (String × PyVal)) : Option PyVal :=
  if pyTruthy (pyGet kvs "language") then some (pyGet kvs "language")
  else
    match fetchNested kvs "language" with
    | Option.none => Option.none
    | some lv => some (if pyTruthy lv then lv else .str "unknown")

/-- Lines 254-256: fetch the "segments" value, mirroring the "text" logic. -/
def extractSegStep (kvs : List (String × PyVal)) : Option PyVal :=
  if isPyNone (pyGet kvs "segments") && (kvs.lookup "result").isSome then
    fetchNested kvs "segments"
  else some (pyGet kvs "segments")

/-- Embedding of `_extract_transcript_from_runner_response`
(queue_worker.py 238-259).  A `none` result models a raised exception;
every `some` result is the returned dict: `text` stripped when a string and
`""` otherwise, `language` defaulted to "unknown" when not a string,
`segments` defaulted to `[]` when not a list. -/
def extractTranscriptFromRunnerResponse (data : PyVal) : Option RunnerTranscript :=
  match data with
  | .dict kvs =>
    match extractTextStep kvs with
    | Option.none => Option.none
    | some tv =>
      match extractLangStep kvs with
      | Option.none => Option.none
      | some lv =>
        match extractSegStep kvs with
        | Option.none => Option.none
        | some sv =>
          some { text := match tv with | .str s => pyStrip s | _ => "",
                 language := match lv with | .str s => s | _ => "unknown",
                 segments := match sv with | .list xs => xs | _ => [] }
  | _ => some { text := "", language := "unknown", segments := [] }

/-- The exact condition under which `_extract_transcript_from_runner_response`
raises: the "result" key holds a truthy non-dict value and at least one of
the three fields forces the nested lookup. -/
def runnerResponseRaises (data : PyVal) : Bool :=
  match data with
  | .dict kvs =>
    pyTruthy (pyGet kvs "result") && !isPyDict (pyGet kvs "result") &&
      (isPyNone (pyGet kvs "text") || !pyTruthy (pyGet kvs "language") ||
        isPyNone (pyGet kvs "segments"))
  | _ => false

/-! ## Theorems -/

/-- C4: `_register_blocked_download_failure` increments the blocked counter
under the gate lock; when the incremented counter reaches the configured
threshold while no pause is active it sets `paused_until = now + pause_seconds`,
with a configured pause of 0 mapped to a timestamp a century (365 * 100 days)
in the future; and `_get_download_pause_remaining_seconds` clears an expired
pause and zeroes the counter. -/
theorem register_blocked_failure_gate (thresholdCfg pauseSeconds : Int) (msg : String)
    (now : ℚ) (s : GateState) :
    (registerBlockedFailure thresholdCfg pauseSeconds msg now s).blockedFailures =
        s.blockedFailures + 1
  ∧ (s.pausedUntil = none → max 1 thresholdCfg ≤ (s.blockedFailures : Int) + 1 →
      0 < pauseSeconds →
      (registerBlockedFailure thresholdCfg pauseSeconds msg now s).pausedUntil =
        some (now + (pauseSeconds : ℚ)))
  ∧ (s.pausedUntil = none → max 1 thresholdCfg ≤ (s.blockedFailures : Int) + 1 →
      pauseSeconds = 0 →
      (registerBlockedFailure thresholdCfg pauseSeconds msg now s).pausedUntil =
        some (now + (365 * 100 * 86400 : ℚ)))
  ∧ (∀ t, s.pausedUntil = some t → t ≤ now →
      getDownloadPauseRemainingSeconds now s =
        ({ pausedUntil := none, blockedFailures := 0 }, 0)) := by
  refine ⟨?_, ?_, ?_, ?_⟩
  · unfold registerBlockedFailure
    cases h : s.pausedUntil <;> simp [h] <;> split_ifs <;> rfl
  · intro hp hth hps
    unfold registerBlockedFailure
    simp only [hp]
    rw [if_neg (by push_cast; omega), if_neg (by omega)]
  · intro hp hth hps
    unfold registerBlockedFailure
    simp only [hp]
    rw [if_neg (by push_cast; omega), if_pos (by omega)]
  · intro t hp hle
    unfold getDownloadPauseRemainingSeconds
    simp [hp, hle]

/-- C4 witness: a gate with two prior blocked failures and no active pause,
threshold 3: the third failure pauses until now + 3600; with pause_seconds 0
it pauses a century; an expired pause is cleared with the counter zeroed. -/
theorem register_blocked_failure_gate_witness :
    (registerBlockedFailure 3 3600 "blocked" 1000 ⟨none, 2⟩).blockedFailures = 3
  ∧ (registerBlockedFailure 3 3600 "blocked" 1000 ⟨none, 2⟩).pausedUntil = some 4600
  ∧ (registerBlockedFailure 3 0 "blocked" 1000 ⟨none, 2⟩).pausedUntil =
      some (1000 + (365 * 100 * 86400 : ℚ))
  ∧ getDownloadPauseRemainingSeconds 5000 ⟨some 4600, 3⟩ =
      ({ pausedUntil := none, blockedFailures := 0 }, 0) := by
  refine ⟨(register_blocked_failure_gate 3 3600 "blocked" 1000 ⟨none, 2⟩).1, ?_, ?_, ?_⟩
  · have h := (register_blocked_failure_gate 3 3600 "blocked" 1000 ⟨none, 2⟩).2.1
      rfl (by decide) (by decide)
    rw [h]; norm_num
  · exact (register_blocked_failure_gate 3 0 "blocked" 1000 ⟨none, 2⟩).2.2.1
      rfl (by decide) rfl
  · exact (register_blocked_failure_gate 3 3600 "blocked" 5000 ⟨some 4600, 3⟩).2.2.2
      4600 rfl (by norm_num)

/-- C2: in the stuck-task pass, a `downloading` row (with a user) whose
update time is older than the 30-minute base timeout is marked `failed`
with an error message and is not reset to `pending`; a `summarizing` row in
the same condition is reset to `pending`; a `converting` row is never
touched (it is excluded from the stuck query). -/
theorem stuck_recovery_policy (now : ℚ) (probe : Nat → Option ℚ) (r : VideoRecord) :
    (r.userId ≠ none → r.status = VideoStatus.downloading →
        now - recordTime r > BASE_STUCK_TASK_TIMEOUT →
        (superviseRecord now probe r).status = VideoStatus.failed ∧
          (superviseRecord now probe r).errorMessage ≠ none ∧
          (superviseRecord now probe r).status ≠ VideoStatus.pending)
  ∧ (r.userId ≠ none → r.status = VideoStatus.summarizing →
        now - recordTime r > BASE_STUCK_TASK_TIMEOUT →
        (superviseRecord now probe r).status = VideoStatus.pending)
  ∧ (r.status = VideoStatus.converting → superviseRecord now probe r = r) := by
  refine ⟨?_, ?_, ?_⟩
  · intro hu hs ht
    have htimeout : stuckTimeout r.status (probe r.id) = BASE_STUCK_TASK_TIMEOUT := by
      rw [hs]; rfl
    unfold superviseRecord
    rw [if_pos ⟨Or.inl hs, hu⟩, htimeout, if_pos ht, if_pos hs]
    exact ⟨rfl, by simp, by simp⟩
  · intro hu hs ht
    have htimeout : stuckTimeout r.status (probe r.id) = BASE_STUCK_TASK_TIMEOUT := by
      rw [hs]; rfl
    unfold superviseRecord
    rw [if_pos ⟨Or.inr (Or.inr hs), hu⟩, htimeout, if_pos ht,
      if_neg (by rw [hs]; decide), if_neg (by rw [hs]; decide)]
  · intro hs
    unfold superviseRecord
    rw [if_neg]
    rw [hs]
    rintro ⟨h | h | h, -⟩ <;> exact absurd h (by decide)

/-- C2 witness: at time 2000 with updated_at 0, a downloading row is marked
failed with a message, a summarizing row is reset to pending, and a
converting row is untouched. -/
theorem stuck_recovery_policy_witness :
    ((superviseRecord 2000 (fun _ => Option.none)
        { id := 2, userId := some 1, status := VideoStatus.downloading, progress := 10,
          errorMessage := none, createdAt := 0, updatedAt := some 0, transcript := none,
          summary := none, keywords := none, completedAt := none }).status = VideoStatus.failed ∧
      (superviseRecord 2000 (fun _ => Option.none)
        { id := 2, userId := some 1, status := VideoStatus.downloading, progress := 10,
          errorMessage := none, createdAt := 0, updatedAt := some 0, transcript := none,
          summary := none, keywords := none, completedAt := none }).errorMessage ≠ none ∧
      (superviseRecord 2000 (fun _ => Option.none)
        { id := 2, userId := some 1, status := VideoStatus.downloading, progress := 10,
          errorMessage := none, createdAt := 0, updatedAt := some 0, transcript := none,
          summary := none, keywords := none, completedAt := none }).status ≠ VideoStatus.pending)
  ∧ (superviseRecord 2000 (fun _ => Option.none)
        { id := 3, userId := some 1, status := VideoStatus.summarizing, progress := 95,
          errorMessage := none, createdAt := 0, updatedAt := some 0, transcript := none,
          summary := none, keywords := none, completedAt := none }).status = VideoStatus.pending
  ∧ superviseRecord 2000 (fun _ => Option.none)
        { id := 4, userId := some 1, status := VideoStatus.converting, progress := 30,
          errorMessage := none, createdAt := 0, updatedAt := some 0, transcript := none,
          summary := none, keywords := none, completedAt := none } =
        { id := 4, userId := some 1, status := VideoStatus.converting, progress := 30,
          errorMessage := none, createdAt := 0, updatedAt := some 0, transcript := none,
          summary := none, keywords := none, completedAt := none } := by
  refine ⟨(stuck_recovery_policy 2000 (fun _ => Option.none) _).1 (by decide) rfl
      (by norm_num [recordTime, BASE_STUCK_TASK_TIMEOUT]),
    (stuck_recovery_policy 2000 (fun _ => Option.none) _).2.1 (by decide) rfl
      (by norm_num [recordTime, BASE_STUCK_TASK_TIMEOUT]),
    (stuck_recovery_policy 2000 (fun _ => Option.none) _).2.2 rfl⟩

/-- C3: for a `transcribing` row the stuck timeout is
`clamp(duration * 10 + 1h, 2h, 24h)` when the WAV probe yields a (positive)
duration and 6 hours when the probe fails, and the row (with a user) is
reset to `pending` exactly when `now - updated_at` exceeds that timeout. -/
theorem transcribing_stuck_timeout (now : ℚ) (probe : Nat → Option ℚ) (r : VideoRecord) :
    (∀ d : ℚ, 0 < d →
        stuckTimeout VideoStatus.transcribing (some d) =
          max MIN_TRANSCRIPTION_TIMEOUT
            (min (d * TRANSCRIPTION_SPEED_FACTOR + TRANSCRIPTION_BUFFER_TIME)
              MAX_TRANSCRIPTION_TIMEOUT))
  ∧ stuckTimeout VideoStatus.transcribing Option.none = 6 * 3600
  ∧ (r.userId ≠ none → r.status = VideoStatus.transcribing →
      ((superviseRecord now probe r).status = VideoStatus.pending ↔
        now - recordTime r > stuckTimeout VideoStatus.transcribing (probe r.id))) := by
  refine ⟨?_, rfl, ?_⟩
  · intro d hd
    simp [stuckTimeout, hd.ne']
  · intro hu hs
    constructor
    · intro hpend
      by_contra hnot
      unfold superviseRecord at hpend
      rw [if_pos ⟨Or.inr (Or.inl hs), hu⟩, hs] at hpend
      rw [if_neg hnot] at hpend
      rw [hs] at hpend
      exact absurd hpend (by decide)
    · intro ht
      unfold superviseRecord
      rw [if_pos ⟨Or.inr (Or.inl hs), hu⟩, hs]
      rw [if_pos ht, if_neg (by decide), if_neg (by decide)]

/-- C3 witness: scenario S3 — a 600-second WAV gives timeout
clamp(600*10 + 3600, 7200, 86400) = 9600 s; a failed probe gives 21600 s;
a transcribing row last updated 14400 s ago (more than 9600) is reset to
pending. -/
theorem transcribing_stuck_timeout_witness :
    stuckTimeout VideoStatus.transcribing (some 600) = 9600
  ∧ stuckTimeout VideoStatus.transcribing Option.none = 21600
  ∧ (superviseRecord 20000 (fun _ => some 600)
      { id := 9, userId := some 1, status := VideoStatus.transcribing, progress := 70,
        errorMessage := none, createdAt := 0, updatedAt := some 5600, transcript := none,
        summary := none, keywords := none, completedAt := none }).status =
      VideoStatus.pending := by
  refine ⟨?_, ?_, ?_⟩
  · have h := (transcribing_stuck_timeout 0 (fun _ => Option.none) default).1 600 (by norm_num)
    rw [h]
    norm_num [MIN_TRANSCRIPTION_TIMEOUT, MAX_TRANSCRIPTION_TIMEOUT,
      TRANSCRIPTION_SPEED_FACTOR, TRANSCRIPTION_BUFFER_TIME, max_def, min_def]
  · have h := (transcribing_stuck_timeout 0 (fun _ => Option.none) default).2.1
    rw [h]; norm_num
  · exact ((transcribing_stuck_timeout 20000 (fun _ => some 600) _).2.2
      (by decide) rfl).mpr
      (by norm_num [recordTime, stuckTimeout, MIN_TRANSCRIPTION_TIMEOUT,
        MAX_TRANSCRIPTION_TIMEOUT, TRANSCRIPTION_SPEED_FACTOR, TRANSCRIPTION_BUFFER_TIME,
        max_def, min_def])

/-- The emitted segments of one chunk are exactly its non-empty-text local
segments, offset-shifted, in order. -/
theorem emitChunkSegments_snd (offset : ℚ) (segs : List WhisperSegment) :
    (emitChunkSegments offset segs).2 =
      (segs.filter fun s => pyStrip s.text != "").map
        fun s => { start := offset + s.start, end_ := offset + s.end_,
                   text := pyStrip s.text : WhisperSegment } := by
  induction segs with
  | nil => rfl
  | cons s rest ih =>
    by_cases h : pyStrip s.text = ""
    · simp [emitChunkSegments, h, ih]
    · simp [emitChunkSegments, h, ih]

/-- The accumulated segment list of the chunk loop is the concatenation of the
per-chunk emissions, in chunk order. -/
theorem transcribeSegmentsGo_snd (chunks : List (ChunkMeta × ChunkTranscription)) :
    (transcribeSegmentsGo chunks).2 =
      chunks.flatMap fun c =>
        (c.2.segments.filter fun s => pyStrip s.text != "").map
          fun s => { start := c.1.offset + s.start, end_ := c.1.offset + s.end_,
                     text := pyStrip s.text : WhisperSegment } := by
  induction chunks with
  | nil => rfl
  | cons c rest ih =>
    obtain ⟨meta, ct⟩ := c
    simp [transcribeSegmentsGo, ih, emitChunkSegments_snd]

/-- C9: `transcribe_segments` emits, for every chunk with offset `o` and every
chunk-local ASR segment `[a, b]` whose stripped text is non-empty, exactly the
global segment `[o + a, o + b]`, and the emitted list preserves chunk order
(it is the in-order concatenation of the per-chunk offset-shifted segments). -/
theorem transcribe_segments_global_offsets (language : Option String)
    (chunks : List (ChunkMeta × ChunkTranscription)) :
    (WhisperService.transcribe_segments language chunks).segments =
      chunks.flatMap fun c =>
        (c.2.segments.filter fun s => pyStrip s.text != "").map
          fun s => { start := c.1.offset + s.start, end_ := c.1.offset + s.end_,
                     text := pyStrip s.text : WhisperSegment } := by
  match chunks with
  | [] => rfl
  | c :: rest =>
    show (transcribeSegmentsGo (c :: rest)).2 = _
    exact transcribeSegmentsGo_snd (c :: rest)

/-- The download scheduling loop only ever adds ids to the running set. -/
theorem scheduleDownloads_mem_fst (l : List VideoRecord) (running : List Nat) (x : Nat)
    (hx : x ∈ running) : x ∈ (scheduleDownloads running l).1 := by
  induction l generalizing running with
  | nil => exact hx
  | cons r rest ih =>
    by_cases h : r.id ∈ running
    · simp only [scheduleDownloads]
      rw [if_pos h]
      exact ih running hx
    · simp only [scheduleDownloads]
      rw [if_neg h]
      exact ih (r.id :: running) (List.mem_cons_of_mem _ hx)

/-- Every id the download loop starts ends up in its running set. -/
theorem scheduleDownloads_snd_mem_fst (l : List VideoRecord) (running : List Nat) (x : Nat)
    (hx : x ∈ (scheduleDownloads running l).2) : x ∈ (scheduleDownloads running l).1 := by
  induction l generalizing running with
  | nil => simp [scheduleDownloads] at hx
  | cons r rest ih =>
    by_cases h : r.id ∈ running
    · simp only [scheduleDownloads] at hx ⊢
      rw [if_pos h] at hx ⊢
      exact ih running hx
    · simp only [scheduleDownloads] at hx ⊢
      rw [if_neg h] at hx ⊢
      have hx2 : x = r.id ∨ x ∈ (scheduleDownloads (r.id :: running) rest).2 :=
        List.mem_cons.1 hx
      rcases hx2 with rfl | hx3
      · exact scheduleDownloads_mem_fst rest (r.id :: running) r.id (List.mem_cons_self _ _)
      · exact ih (r.id :: running) hx3

/-- The heavy-processing loop never starts an id that is in the download
running set it was given. -/
theorem scheduleProcessing_snd_not_runD (l : List VideoRecord) (runP runD : List Nat) (x : Nat)
    (hx : x ∈ (scheduleProcessing runP runD l).2) : x ∉ runD := by
  induction l generalizing runP with
  | nil => simp [scheduleProcessing] at hx
  | cons r rest ih =>
    by_cases h : r.id ∈ runP ∨ r.id ∈ runD
    · simp only [scheduleProcessing] at hx
      rw [if_pos h] at hx
      exact ih runP hx
    · simp only [scheduleProcessing] at hx
      rw [if_neg h] at hx
      have hx2 : x = r.id ∨ x ∈ (scheduleProcessing (r.id :: runP) runD rest).2 :=
        List.mem_cons.1 hx
      rcases hx2 with rfl | hx3
      · exact fun hmem => h (Or.inr hmem)
      · exact ih (r.id :: runP) hx3

/-- The download phase of a tick keeps every id that was already running. -/
theorem tickDownloads_fst_superset (inp : TickInput) (db1 : List VideoRecord)
    (pr : Nat) (x : Nat) (hx : x ∈ inp.runningDownloads) :
    x ∈ (tickDownloads inp db1 pr).1 := by
  simp only [tickDownloads]
  split_ifs with h1 h2
  · exact hx
  · exact scheduleDownloads_mem_fst _ _ _ hx
  · exact hx

/-- Every id the download phase starts is in the running set it leaves behind. -/
theorem tickDownloads_snd_mem_fst (inp : TickInput) (db1 : List VideoRecord)
    (pr : Nat) (x : Nat) (hx : x ∈ (tickDownloads inp db1 pr).2) :
    x ∈ (tickDownloads inp db1 pr).1 := by
  simp only [tickDownloads] at hx ⊢
  split_ifs at hx ⊢ with h1 h2
  · simp at hx
  · exact scheduleDownloads_snd_mem_fst _ _ _ hx
  · simp at hx

/-- C5 (amended): in every tick, an id in the download pool's running set —
including ids the same tick just started downloading — is never started on
the heavy-processing pool; the download pool itself checks only its own
running set. -/
theorem heavy_pool_excludes_download_running (inp : TickInput) (x : Nat)
    (hx : x ∈ (workerTick inp).startedProcessing) :
    x ∉ inp.runningDownloads ∧ x ∉ (workerTick inp).startedDownloads := by
  have hx2 : x ∈ (tickProcessing inp (inp.db.map (superviseRecord inp.now inp.probe))
      (tickDownloads inp (inp.db.map (superviseRecord inp.now inp.probe))
        (getDownloadPauseRemainingSeconds inp.now inp.gate).2).1).2 := hx
  have hnotD : x ∉ (tickDownloads inp (inp.db.map (superviseRecord inp.now inp.probe))
      (getDownloadPauseRemainingSeconds inp.now inp.gate).2).1 := by
    simp only [tickProcessing] at hx2
    split_ifs at hx2 with h
    · exact scheduleProcessing_snd_not_runD _ _ _ _ hx2
    · simp at hx2
  exact ⟨fun hmem => hnotD (tickDownloads_fst_superset _ _ _ _ hmem),
    fun hmem => hnotD (tickDownloads_snd_mem_fst _ _ _ _ hmem)⟩

/-- Tick input of the C5 witness: one converting row, both pools empty. -/
def heavyStartInput : TickInput :=
  { db := [{ id := 1, userId := some 1, status := VideoStatus.converting, progress := 30,
             errorMessage := none, createdAt := 0, updatedAt := none, transcript := none,
             summary := none, keywords := none, completedAt := none }],
    now := 0, runningDownloads := [], runningProcessing := [],
    downloadConcurrency := 1, processConcurrency := 1, probe := fun _ => Option.none,
    gate := { pausedUntil := none, blockedFailures := 0 } }

/-- C5 witness: a tick that starts one heavy-processing task; the started id
is in neither the prior download running set nor the tick's started
downloads. -/
theorem heavy_pool_excludes_download_running_witness :
    (1 : Nat) ∉ heavyStartInput.runningDownloads ∧
      (1 : Nat) ∉ (workerTick heavyStartInput).startedDownloads :=
  heavy_pool_excludes_download_running heavyStartInput 1 (by
    have h : (workerTick heavyStartInput).startedProcessing = [1] := rfl
    rw [h]
    exact List.mem_cons_self _ _)

/-- Tick input of the C5 counterexample: one pending row whose id 1 is already
in the heavy pool's running set. -/
def crossPoolInput : TickInput :=
  { db := [{ id := 1, userId := some 1, status := VideoStatus.pending, progress := 0,
             errorMessage := none, createdAt := 0, updatedAt := none, transcript := none,
             summary := none, keywords := none, completedAt := none }],
    now := 0, runningDownloads := [], runningProcessing := [1],
    downloadConcurrency := 1, processConcurrency := 1, probe := fun _ => Option.none,
    gate := { pausedUntil := none, blockedFailures := 0 } }

/-- C5 counterexample: a pending row whose id is in the heavy pool's running
set is nevertheless started on the download pool in the same tick — the
download scheduling loop consults only `running_downloads`
(queue_worker.py 1450-1454). -/
theorem download_pool_ignores_heavy_running :
    (1 : Nat) ∈ crossPoolInput.runningProcessing ∧
      (workerTick crossPoolInput).startedDownloads = [1] :=
  ⟨List.mem_cons_self _ _, rfl⟩

/-- C6 (amended): the stuck-task supervisor consults only the row's stage,
timestamps and the probe — never the pools' running sets — so a stale row
is recovered (downloading marked failed; transcribing or summarizing reset
to pending) even when its id is currently in a running set. -/
theorem supervisor_ignores_running_sets (runningDownloads runningProcessing : List Nat)
    (now : ℚ) (probe : Nat → Option ℚ) (r : VideoRecord)
    (_hmem : r.id ∈ runningDownloads ∨ r.id ∈ runningProcessing)
    (hu : r.userId ≠ none)
    (hstale : now - recordTime r > stuckTimeout r.status (probe r.id)) :
    (r.status = VideoStatus.downloading →
      (superviseRecord now probe r).status = VideoStatus.failed)
  ∧ ((r.status = VideoStatus.transcribing ∨ r.status = VideoStatus.summarizing) →
      (superviseRecord now probe r).status = VideoStatus.pending) := by
  constructor
  · intro hs
    unfold superviseRecord
    rw [if_pos ⟨Or.inl hs, hu⟩, if_pos hstale, if_pos hs]
  · rintro (hs | hs)
    · unfold superviseRecord
      rw [if_pos ⟨Or.inr (Or.inl hs), hu⟩, if_pos hstale, hs,
        if_neg (by decide), if_neg (by decide)]
    · unfold superviseRecord
      rw [if_pos ⟨Or.inr (Or.inr hs), hu⟩, if_pos hstale, hs,
        if_neg (by decide), if_neg (by decide)]

/-- Record used by the C6 race evidence: a downloading row, last updated at
time 0, whose id 1 sits in a running set while the supervisor runs at time
7200 (two hours, past the 30-minute base timeout). -/
def raceRecord : VideoRecord :=
  { id := 1, userId := some 1, status := VideoStatus.downloading, progress := 10,
    errorMessage := none, createdAt := 0, updatedAt := some 0, transcript := none,
    summary := none, keywords := none, completedAt := none }

/-- C6 witness: the supervisor marks `raceRecord` failed although its id is in
the download running set `[1]`. -/
theorem supervisor_ignores_running_sets_witness :
    (superviseRecord 7200 (fun _ => Option.none) raceRecord).status = VideoStatus.failed :=
  (supervisor_ignores_running_sets [1] [] 7200 (fun _ => Option.none) raceRecord
    (Or.inl (List.mem_cons_self _ _)) (by decide)
    (by
      have hto : stuckTimeout raceRecord.status ((fun _ => (Option.none : Option ℚ))
          raceRecord.id) = BASE_STUCK_TASK_TIMEOUT := rfl
      rw [hto]
      norm_num [raceRecord, recordTime, BASE_STUCK_TASK_TIMEOUT])).1 rfl

/-- Tick input of the C6 counterexample: `raceRecord` with its id in the
download running set. -/
def raceInput : TickInput :=
  { db := [raceRecord], now := 7200, runningDownloads := [1], runningProcessing := [],
    downloadConcurrency := 1, processConcurrency := 1, probe := fun _ => Option.none,
    gate := { pausedUntil := none, blockedFailures := 0 } }

/-- C6 counterexample: a full tick whose supervisor pass mutates the row of an
id that is in the download pool's running set (no running-set check and no
optimistic update guard exists in the supervisor). -/
theorem supervisor_mutates_row_in_running_set :
    raceRecord.id ∈ raceInput.runningDownloads ∧
      ((workerTick raceInput).db.map VideoRecord.status) = [VideoStatus.failed] := by
  constructor
  · exact List.mem_cons_self _ _
  · have hdb : (workerTick raceInput).db =
        [superviseRecord 7200 (fun _ => Option.none) raceRecord] := rfl
    rw [hdb]
    have hs : (superviseRecord 7200 (fun _ => Option.none) raceRecord).status =
        VideoStatus.failed := by
      have hto : stuckTimeout raceRecord.status ((fun _ => (Option.none : Option ℚ))
          raceRecord.id) = BASE_STUCK_TASK_TIMEOUT := rfl
      unfold superviseRecord
      rw [hto, if_pos ⟨Or.inl rfl, by decide⟩,
        if_pos (by norm_num [raceRecord, recordTime, BASE_STUCK_TASK_TIMEOUT]),
        if_pos (show raceRecord.status = VideoStatus.downloading from rfl)]
    simp [hs]

/-- A pending row with a user, as created by the API or the poller. -/
def mkPendingRecord (i u : Nat) (t : ℚ) : VideoRecord :=
  { id := i, userId := some u, status := VideoStatus.pending, progress := 0,
    errorMessage := none, createdAt := t, updatedAt := none, transcript := none,
    summary := none, keywords := none, completedAt := none }

/-- C8: with three pending rows created at t1 < t2 < t3, an unpaused gate and
a single free download slot, the tick starts exactly the newest row (the
query orders by created_at DESC, id DESC and limits to the free slots). -/
theorem downloads_newest_first (t1 t2 t3 : ℚ) (i1 i2 i3 u : Nat) (now : ℚ)
    (probe : Nat → Option ℚ) (pc : Nat) (h12 : t1 < t2) (h23 : t2 < t3) :
    (workerTick
      { db := [mkPendingRecord i1 u t1, mkPendingRecord i2 u t2, mkPendingRecord i3 u t3],
        now := now, runningDownloads := [], runningProcessing := [],
        downloadConcurrency := 1, processConcurrency := pc, probe := probe,
        gate := { pausedUntil := none, blockedFailures := 0 } }).startedDownloads = [i3] := by
  have hno12 : ¬ pendingOrder (mkPendingRecord i1 u t1) (mkPendingRecord i2 u t2) := by
    simp only [pendingOrder, mkPendingRecord]
    push_neg
    exact ⟨h12.le, fun h => absurd h (ne_of_gt h12)⟩
  have hno13 : ¬ pendingOrder (mkPendingRecord i1 u t1) (mkPendingRecord i3 u t3) := by
    simp only [pendingOrder, mkPendingRecord]
    push_neg
    exact ⟨(h12.trans h23).le, fun h => absurd h (ne_of_gt (h12.trans h23))⟩
  have hno23 : ¬ pendingOrder (mkPendingRecord i2 u t2) (mkPendingRecord i3 u t3) := by
    simp only [pendingOrder, mkPendingRecord]
    push_neg
    exact ⟨h23.le, fun h => absurd h (ne_of_gt h23)⟩
  have hsort : List.insertionSort pendingOrder
      [mkPendingRecord i1 u t1, mkPendingRecord i2 u t2, mkPendingRecord i3 u t3] =
      [mkPendingRecord i3 u t3, mkPendingRecord i2 u t2, mkPendingRecord i1 u t1] := by
    simp only [List.insertionSort, List.orderedInsert, if_neg hno12, if_neg hno13, if_neg hno23]
  have hmain : (workerTick
      { db := [mkPendingRecord i1 u t1, mkPendingRecord i2 u t2, mkPendingRecord i3 u t3],
        now := now, runningDownloads := [], runningProcessing := [],
        downloadConcurrency := 1, processConcurrency := pc, probe := probe,
        gate := { pausedUntil := none, blockedFailures := 0 } }).startedDownloads =
      (scheduleDownloads [] ((List.insertionSort pendingOrder
        [mkPendingRecord i1 u t1, mkPendingRecord i2 u t2,
          mkPendingRecord i3 u t3]).take 1)).2 := rfl
  rw [hmain, hsort]
  rfl

/-- C8 witness: pending rows created at times 1 < 2 < 3 with ids 1, 2, 3 —
the tick starts exactly id 3. -/
theorem downloads_newest_first_witness :
    (workerTick
      { db := [mkPendingRecord 1 1 1, mkPendingRecord 2 1 2, mkPendingRecord 3 1 3],
        now := 0, runningDownloads := [], runningProcessing := [],
        downloadConcurrency := 1, processConcurrency := 1, probe := fun _ => Option.none,
        gate := { pausedUntil := none, blockedFailures := 0 } }).startedDownloads = [3] :=
  downloads_newest_first 1 2 3 1 2 3 1 0 (fun _ => Option.none) 1
    (by norm_num) (by norm_num)

/-- C7 counterexample: under the default configuration
(`YTDLP_DOWNLOAD_MAX_ATTEMPTS` = 1) a first attempt failing with
"Requested format is not available" is not retried with the fallback format:
the downloader raises a non-retryable `VideoDownloadError` (the fallback
branch requires `max_attempts >= 2`, video_downloader.py 316-322). -/
theorem format_unavailable_default_raises :
    VideoDownloader.download 1 (fun _ _ => .failure "Requested format is not available") =
      .error { msg := "Failed to download video: Requested format is not available",
               blocked := false, retryable := false } := rfl

/-- C7 (amended): a format-unavailable failure on attempt 1 is retried exactly
once with the looser (fallback) format selector only when the configured max
attempts is at least 2; under the default configuration (max attempts 1) the
downloader raises instead. -/
theorem format_unavailable_retry_requires_config (maxAttemptsCfg : Int)
    (attemptOutcome : Nat → DlFormat → AttemptOutcome) (msg : String) (info : DownloadInfo)
    (hfail : attemptOutcome 1 DlFormat.preferred = .failure msg)
    (hnb : looksLikeBlockedError msg = false)
    (hfu : looksLikeFormatUnavailable msg = true) :
    (2 ≤ maxAttemptsCfg → attemptOutcome 2 DlFormat.fallback = .success info →
      VideoDownloader.download maxAttemptsCfg attemptOutcome = .ok info)
  ∧ (maxAttemptsCfg = 1 →
      VideoDownloader.download maxAttemptsCfg attemptOutcome =
        .error { msg := "Failed to download video: " ++ msg, blocked := false,
                 retryable := looksRetryable msg }) := by
  constructor
  · intro hcfg hsucc
    have hmax : max 1 maxAttemptsCfg = maxAttemptsCfg := max_eq_right (by omega)
    have hk : ∃ k, (max 1 maxAttemptsCfg).toNat = k + 2 := by
      rw [hmax]
      exact ⟨maxAttemptsCfg.toNat - 2, by omega⟩
    obtain ⟨k, hk⟩ := hk
    have hdec : decide (2 ≤ k + 2) = true := decide_eq_true (by omega)
    unfold VideoDownloader.download
    rw [hk]
    show downloadGo attemptOutcome (k + 2) 1 "" (k + 1 + 1) = .ok info
    simp [downloadGo, hfail, hnb, hfu, hdec, hsucc]
  · intro hcfg
    subst hcfg
    show downloadGo attemptOutcome 1 1 "" (0 + 1) = _
    simp [downloadGo, hfail, hnb, hfu]

/-- Successful second-attempt metadata used by the C7 witness (scenario S1). -/
def dlInfoEx : DownloadInfo :=
  { id := "ABCDEFGHIJK", title := "T", duration := 120,
    filePath := "/data/ABCDEFGHIJK.mp4" }

/-- Attempt oracle of the C7 witness: attempt 1 fails with the
format-unavailable error, any later attempt succeeds. -/
def dlOracleEx : Nat → DlFormat → AttemptOutcome := fun attempt _ =>
  if attempt == 1 then .failure "Requested format is not available" else .success dlInfoEx

/-- C7 witness: with max attempts configured to 2, the format-unavailable
failure on attempt 1 is followed by a successful fallback-format attempt 2. -/
theorem format_unavailable_retry_requires_config_witness :
    VideoDownloader.download 2 dlOracleEx = .ok dlInfoEx :=
  (format_unavailable_retry_requires_config 2 dlOracleEx
    "Requested format is not available" dlInfoEx rfl (by decide) (by decide)).1
    (by norm_num) rfl

/-- Summarizing row used by the C1 evidence. -/
def summarizingRecord : VideoRecord :=
  { id := 7, userId := some 1, status := VideoStatus.summarizing, progress := 95,
    errorMessage := none, createdAt := 0, updatedAt := some 0,
    transcript := some "hello world", summary := none, keywords := none,
    completedAt := none }

/-- C1 counterexample: when `generate_summary` raises a (transient) LLM error,
the catch-all handler of `process_video_task` (queue_worker.py 1155-1168)
marks the item FAILED — it is not kept in `summarizing` for a later retry. -/
theorem summarize_llm_error_marks_failed_cx :
    (summarizePhase 100 summarizingRecord
        (.error "LLM请求超时，请稍后重试") (.ok "")).status = VideoStatus.failed ∧
      (summarizePhase 100 summarizingRecord
        (.error "LLM请求超时，请稍后重试") (.ok "")).status ≠ VideoStatus.summarizing := by
  have h : (summarizePhase 100 summarizingRecord
      (.error "LLM请求超时，请稍后重试") (.ok "")).status = VideoStatus.failed := rfl
  exact ⟨h, by rw [h]; decide⟩

/-- C1 (amended): if the summarize step raises an LLM error whose message does
not look membership-only, the executor marks the item `failed` with the error
message set (and `unavailable` when it does look membership-only); the item
is not kept in `summarizing`. -/
theorem summarize_llm_error_marks_failed (now : ℚ) (r : VideoRecord) (msg : String)
    (kw : LLMOutcome) (hs : r.status = VideoStatus.summarizing)
    (hm : looksLikeMembershipOnlyError msg = false) :
    (summarizePhase now r (.error msg) kw).status = VideoStatus.failed ∧
      (summarizePhase now r (.error msg) kw).errorMessage = some msg := by
  unfold summarizePhase
  rw [if_pos (Or.inr hs)]
  simp [hm]

/-- C1 witness: a summarizing row plus a concrete transient LLM error message
is marked failed with the message stored. -/
theorem summarize_llm_error_marks_failed_witness :
    (summarizePhase 100 summarizingRecord
        (.error "LLM请求失败: connection refused") (.ok "")).status = VideoStatus.failed ∧
      (summarizePhase 100 summarizingRecord
        (.error "LLM请求失败: connection refused") (.ok "")).errorMessage =
        some "LLM请求失败: connection refused" :=
  summarize_llm_error_marks_failed 100 summarizingRecord
    "LLM请求失败: connection refused" (.ok "") rfl (by decide)

/-- The nested access raises exactly when "result" holds a truthy non-dict
value. -/
theorem fetchNested_eq_none_iff (kvs : List (String × PyVal)) (k : String) :
    fetchNested kvs k = Option.none ↔
      (pyTruthy (pyGet kvs "result") = true ∧ isPyDict (pyGet kvs "result") = false) := by
  unfold fetchNested
  by_cases h : pyTruthy (pyGet kvs "result") = true
  · rw [if_pos h]
    cases hrv : pyGet kvs "result" <;> simp_all [isPyDict, pyTruthy]
  · rw [if_neg h]
    simp
    intro h2
    exact absurd h2 h

/-- A truthy "result" value implies the "result" key is present. -/
theorem truthy_result_isSome (kvs : List (String × PyVal))
    (h : pyTruthy (pyGet kvs "result") = true) : (kvs.lookup "result").isSome = true := by
  unfold pyGet at h
  cases hl : kvs.lookup "result"
  · rw [hl] at h
    simp [pyTruthy] at h
  · simp

/-- The text step raises exactly when "text" is missing/None and "result" is
truthy non-dict. -/
theorem extractTextStep_none_iff (kvs : List (String × PyVal)) :
    extractTextStep kvs = Option.none ↔
      (isPyNone (pyGet kvs "text") = true ∧ pyTruthy (pyGet kvs "result") = true ∧
        isPyDict (pyGet kvs "result") = false) := by
  unfold extractTextStep
  by_cases hc : (isPyNone (pyGet kvs "text") && (kvs.lookup "result").isSome) = true
  · rw [if_pos hc, fetchNested_eq_none_iff]
    have hc2 := hc
    simp only [Bool.and_eq_true] at hc2
    simp [hc2.1]
  · rw [if_neg hc]
    simp only [Bool.and_eq_true] at hc
    constructor
    · intro h
      exact absurd h (by simp)
    · rintro ⟨h1, h2, -⟩
      exact absurd ⟨h1, truthy_result_isSome kvs h2⟩ hc

/-- The language step raises exactly when "language" is falsy at top level and
"result" is truthy non-dict. -/
theorem extractLangStep_none_iff (kvs : List (String × PyVal)) :
    extractLangStep kvs = Option.none ↔
      (pyTruthy (pyGet kvs "language") = false ∧ pyTruthy (pyGet kvs "result") = true ∧
        isPyDict (pyGet kvs "result") = false) := by
  unfold extractLangStep
  by_cases h : pyTruthy (pyGet kvs "language") = true
  · rw [if_pos h]
    simp [h]
  · rw [if_neg h]
    have h' : pyTruthy (pyGet kvs "language") = false := Bool.eq_false_iff.mpr h
    cases hf : fetchNested kvs "language"
    · simp [h', (fetchNested_eq_none_iff kvs "language").1 hf]
    · have : ¬ (pyTruthy (pyGet kvs "result") = true ∧
          isPyDict (pyGet kvs "result") = false) := by
        intro hcon
        rw [(fetchNested_eq_none_iff kvs "language").2 hcon] at hf
        cases hf
      simp only [hf]
      constructor
      · intro hco
        exact absurd hco (by simp)
      · rintro ⟨-, h2, h3⟩
        exact absurd ⟨h2, h3⟩ this

/-- The segments step raises exactly when "segments" is missing/None and
"result" is truthy non-dict. -/
theorem extractSegStep_none_iff (kvs : List (String × PyVal)) :
    extractSegStep kvs = Option.none ↔
      (isPyNone (pyGet kvs "segments") = true ∧ pyTruthy (pyGet kvs "result") = true ∧
        isPyDict (pyGet kvs "result") = false) := by
  unfold extractSegStep
  by_cases hc : (isPyNone (pyGet kvs "segments") && (kvs.lookup "result").isSome) = true
  · rw [if_pos hc, fetchNested_eq_none_iff]
    have hc2 := hc
    simp only [Bool.and_eq_true] at hc2
    simp [hc2.1]
  · rw [if_neg hc]
    simp only [Bool.and_eq_true] at hc
    constructor
    · intro h
      exact absurd h (by simp)
    · rintro ⟨h1, h2, -⟩
      exact absurd ⟨h1, truthy_result_isSome kvs h2⟩ hc

/-- The parser raises exactly when one of its three steps raises. -/
theorem extract_dict_none_iff (kvs : List (String × PyVal)) :
    extractTranscriptFromRunnerResponse (.dict kvs) = Option.none ↔
      (extractTextStep kvs = Option.none ∨ extractLangStep kvs = Option.none ∨
        extractSegStep kvs = Option.none) := by
  unfold extractTranscriptFromRunnerResponse
  cases ht : extractTextStep kvs <;> cases hl : extractLangStep kvs <;>
    cases hs : extractSegStep kvs <;> simp [ht, hl, hs]

/-- When "result" is falsy or maps the key to None in a nested dict, the
nested access yields Python None. -/
theorem fetchNested_default (kvs : List (String × PyVal)) (k : String)
    (hres : pyTruthy (pyGet kvs "result") = false ∨
      ∃ rkvs, pyGet kvs "result" = PyVal.dict rkvs ∧ pyGet rkvs k = PyVal.none) :
    fetchNested kvs k = some PyVal.none := by
  unfold fetchNested
  rcases hres with hfalse | ⟨rkvs, hrv, h1⟩
  · rw [if_neg (by rw [hfalse]; exact Bool.false_ne_true)]
    rfl
  · rw [hrv]
    by_cases htr : pyTruthy (PyVal.dict rkvs) = true
    · rw [if_pos htr]
      simp [h1]
    · rw [if_neg htr]
      rfl

/-- C10 (amended): the runner-response parser raises (AttributeError) exactly
when the "result" key holds a truthy non-dict value and a top-level field
forces the nested lookup ("text" or "segments" missing/None, or "language"
falsy); on every other input it returns, and in particular any non-dict
input, and any dict lacking the three fields whose "result" is falsy or a
dict also lacking them, yields `{text: "", language: "unknown", segments: []}`. -/
theorem extract_transcript_characterization (data : PyVal) :
    (extractTranscriptFromRunnerResponse data = Option.none ↔
      runnerResponseRaises data = true)
  ∧ (isPyDict data = false →
      extractTranscriptFromRunnerResponse data =
        some { text := "", language := "unknown", segments := [] })
  ∧ (∀ kvs, data = PyVal.dict kvs →
      pyGet kvs "text" = PyVal.none → pyGet kvs "language" = PyVal.none →
      pyGet kvs "segments" = PyVal.none →
      (pyTruthy (pyGet kvs "result") = false ∨
        ∃ rkvs, pyGet kvs "result" = PyVal.dict rkvs ∧ pyGet rkvs "text" = PyVal.none ∧
          pyGet rkvs "language" = PyVal.none ∧ pyGet rkvs "segments" = PyVal.none) →
      extractTranscriptFromRunnerResponse data =
        some { text := "", language := "unknown", segments := [] }) := by
  refine ⟨?_, ?_, ?_⟩
  · cases data with
    | dict kvs =>
      rw [extract_dict_none_iff, extractTextStep_none_iff, extractLangStep_none_iff,
        extractSegStep_none_iff]
      simp only [runnerResponseRaises, Bool.and_eq_true, Bool.or_eq_true,
        Bool.not_eq_true']
      tauto
    | none => simp [extractTranscriptFromRunnerResponse, runnerResponseRaises]
    | bool b => simp [extractTranscriptFromRunnerResponse, runnerResponseRaises]
    | int n => simp [extractTranscriptFromRunnerResponse, runnerResponseRaises]
    | float q => simp [extractTranscriptFromRunnerResponse, runnerResponseRaises]
    | str s => simp [extractTranscriptFromRunnerResponse, runnerResponseRaises]
    | list xs => simp [extractTranscriptFromRunnerResponse, runnerResponseRaises]
  · intro h
    cases data <;> simp_all [isPyDict, extractTranscriptFromRunnerResponse]
  · rintro kvs rfl htext hlang hseg hres
    have hfetchText : fetchNested kvs "text" = some PyVal.none :=
      fetchNested_default kvs "text"
        (hres.imp id fun ⟨rkvs, hrv, h1, _, _⟩ => ⟨rkvs, hrv, h1⟩)
    have hfetchLang : fetchNested kvs "language" = some PyVal.none :=
      fetchNested_default kvs "language"
        (hres.imp id fun ⟨rkvs, hrv, _, h2, _⟩ => ⟨rkvs, hrv, h2⟩)
    have hfetchSeg : fetchNested kvs "segments" = some PyVal.none :=
      fetchNested_default kvs "segments"
        (hres.imp id fun ⟨rkvs, hrv, _, _, h3⟩ => ⟨rkvs, hrv, h3⟩)
    have htStep : extractTextStep kvs = some PyVal.none := by
      unfold extractTextStep
      by_cases hc : (isPyNone (pyGet kvs "text") && (kvs.lookup "result").isSome) = true
      · rw [if_pos hc]
        exact hfetchText
      · rw [if_neg hc, htext]
    have hlStep : extractLangStep kvs = some (PyVal.str "unknown") := by
      unfold extractLangStep
      rw [if_neg (by rw [hlang]; simp [pyTruthy]), hfetchLang]
      rfl
    have hsStep : extractSegStep kvs = some PyVal.none := by
      unfold extractSegStep
      by_cases hc : (isPyNone (pyGet kvs "segments") && (kvs.lookup "result").isSome) = true
      · rw [if_pos hc]
        exact hfetchSeg
      · rw [if_neg hc, hseg]
    simp only [extractTranscriptFromRunnerResponse, htStep, hlStep, hsStep]

/-- C10 counterexample: on `{"result": "x"}` the parser reaches
`(data.get("result") or {}).get("text")` with the string "x" and raises
AttributeError — it is not total. -/
theorem extract_raises_on_truthy_nondict_result :
    extractTranscriptFromRunnerResponse (PyVal.dict [("result", PyVal.str "x")]) =
      Option.none := rfl

/-- C10 witness: a non-dict input and a dict lacking the fields (with no
"result") both return the default `{text: "", language: "unknown",
segments: []}`. -/
theorem extract_transcript_characterization_witness :
    extractTranscriptFromRunnerResponse (PyVal.str "hello") =
      some { text := "", language := "unknown", segments := [] }
  ∧ extractTranscriptFromRunnerResponse (PyVal.dict [("status", PyVal.str "completed")]) =
      some { text := "", language := "unknown", segments := [] } :=
  ⟨(extract_transcript_characterization (PyVal.str "hello")).2.1 rfl,
   (extract_transcript_characterization (PyVal.dict [("status", PyVal.str "completed")])).2.2
     [("status", PyVal.str "completed")] rfl rfl rfl rfl (Or.inl rfl)⟩
